import Mathlib

/-!
Verification of the INFO-GRAPHICS reporting script (`22056555.py`).

The script loads a CSV of world energy statistics, filters it by country
and year range (`filter_data`), renders four charts, and composites the
chart images plus text paragraphs onto one 2400x1500 canvas
(`create_combined_image`).

The shallow embedding below models:
  * an Energy Record row as a structure with the `country` and `year`
    columns and the numeric columns the script reads;
  * a DataFrame as a `List Row` (pandas boolean-mask selection keeps row
    order and duplicates, which `List.filter` mirrors);
  * each chart renderer by the data it selects from its input table; a
    renderer that would raise (pandas `iloc[0]` on an empty selection,
    matplotlib `bar` with non-broadcastable argument lengths) returns
    `none`;
  * the compositor `create_combined_image` by the geometry it produces:
    canvas size, paste operations (path, position, size, corner radius,
    gap) and text boxes (position, width, height, wrapped text).  Text
    measurement (`ImageDraw.textsize`) and paragraph wrapping
    (`textwrap.fill`) are external library calls; they enter the model as
    an explicit environment `TextEnv` of pure functions.
-/

namespace Infographic

/-- One row of the energy CSV: the `country` and `year` columns plus the
numeric columns that `22056555.py` reads.  The numeric columns are
modelled as rationals. -/
structure Row where
  country : String
  year : Int
  wind_electricity : Rat
  coal_electricity : Rat
  gas_electricity : Rat
  nuclear_electricity : Rat
  hydro_electricity : Rat
  solar_electricity : Rat
  fossil_electricity : Rat
  biofuel_electricity : Rat
  carbon_intensity_elec : Rat
  greenhouse_gas_emissions : Rat
deriving DecidableEq

/-- Model of `filter_data(df, selected_countries, start_year, end_year)`:
`df_selected = df[df['country'].isin(selected_countries)]` followed by
`df_selected[(df_selected['year'] >= start_year) & (df_selected['year'] <= end_year)]`. -/
def filter_data (df : List Row) (selected_countries : List String)
    (start_year end_year : Int) : List Row :=
  let df_selected := df.filter (fun r => decide (r.country ∈ selected_countries))
  df_selected.filter (fun r => decide (start_year ≤ r.year) && decide (r.year ≤ end_year))

/-- The country list hard-coded in the main execution block. -/
def selected_countries : List String :=
  ["Canada", "India", "China", "Japan", "United Kingdom"]

/-- The eleven years 2012..2022 covered by the main execution's
`filter_data(df_energy, selected_countries, 2012, 2022)` call. -/
def study_years : List Int :=
  [2012, 2013, 2014, 2015, 2016, 2017, 2018, 2019, 2020, 2021, 2022]

/-- Per-country rows read by `plot_wind_energy_trend`:
`df_country = df_selected[df_selected['country'] == country]` for each
country of `selected_countries`. -/
def plot_wind_energy_trend_rows (df_selected : List Row)
    (selected_countries : List String) : List (List Row) :=
  selected_countries.map (fun country =>
    df_selected.filter (fun r => r.country == country))

/-- Data plotted by `plot_wind_energy_trend`: for each country the
`(year, wind_electricity)` series.  `plt.plot` accepts equal-length
series of any length, so the renderer never fails: the result is always
`some`. -/
def plot_wind_energy_trend (df_selected : List Row)
    (selected_countries : List String) : Option (List (List (Int × Rat))) :=
  some ((plot_wind_energy_trend_rows df_selected selected_countries).map
    (fun rows => rows.map (fun r => (r.year, r.wind_electricity))))

/-- Per-country rows read by `plot_carbon_intensity` (same selection as
the wind renderer). -/
def plot_carbon_intensity_rows (df_selected : List Row)
    (selected_countries : List String) : List (List Row) :=
  selected_countries.map (fun country =>
    df_selected.filter (fun r => r.country == country))

/-- Data plotted by `plot_carbon_intensity`: per-country
`(year, carbon_intensity_elec)` series; never fails. -/
def plot_carbon_intensity (df_selected : List Row)
    (selected_countries : List String) : Option (List (List (Int × Rat))) :=
  some ((plot_carbon_intensity_rows df_selected selected_countries).map
    (fun rows => rows.map (fun r => (r.year, r.carbon_intensity_elec))))

/-- Rows read by `plot_electricity_generation_mix`:
`df_2018 = df_selected[df_selected['year'] == 2022]`. -/
def plot_electricity_generation_mix_rows (df_selected : List Row) : List Row :=
  df_selected.filter (fun r => r.year == 2022)

/-- NumPy broadcasting of two 1-d lengths, as used by `plt.bar` to match
`x_coordinates` (length `len(selected_countries)`) against the selected
column (length `len(df_2018)`): compatible iff equal or one of them is 1. -/
def broadcastable (a b : Nat) : Bool :=
  a == b || a == 1 || b == 1

/-- Data plotted by `plot_electricity_generation_mix`: for each of the
three energy types, the column of `df_2018` values passed to `plt.bar`
against `len(selected_countries)` x-coordinates.  `none` models the
shape-mismatch error `plt.bar` raises when the lengths do not broadcast. -/
def plot_electricity_generation_mix (df_selected : List Row)
    (selected_countries : List String) : Option (List (List Rat)) :=
  let df_2018 := plot_electricity_generation_mix_rows df_selected
  if broadcastable selected_countries.length df_2018.length then
    some ([Row.greenhouse_gas_emissions, Row.coal_electricity,
           Row.fossil_electricity].map (fun f => df_2018.map f))
  else
    none

/-- Rows read by `plot_china_electricity_production_pie`:
`df_energy[(df_energy['country'] == 'China') & (df_energy['year'] == 2022)]`,
taken from the renderer's own `df_energy` argument (the full table in the
main execution), not from the filtered table. -/
def china_data_2018 (df_energy : List Row) : List Row :=
  df_energy.filter (fun r => r.country == "China" && r.year == 2022)

/-- Data plotted by `plot_china_electricity_production_pie`: the eight
electricity columns of the first matching row (`.iloc[0]`).  `none`
models the IndexError `iloc[0]` raises when no row matches. -/
def plot_china_electricity_production_pie (df_energy : List Row) :
    Option (List Rat) :=
  match (china_data_2018 df_energy).head? with
  | none => none
  | some r0 =>
      some [r0.coal_electricity, r0.gas_electricity, r0.nuclear_electricity,
            r0.hydro_electricity, r0.wind_electricity, r0.solar_electricity,
            r0.fossil_electricity, r0.biofuel_electricity]

/-- External text facilities used by the compositor:
`textsize font_path font_size text` models
`draw.textsize(text, font=ImageFont.truetype(font_path, font_size))`,
and `fill text width` models `textwrap.fill(text, width=width)`. -/
structure TextEnv where
  textsize : String → Nat → String → Int × Int
  fill : String → Nat → String

/-- One `paste_with_rounded_corners_and_gap` call: the image path and the
`position`, `size`, `corner_radius`, `gap` arguments. -/
structure PasteOp where
  image_path : String
  position : Int × Int
  size : Int × Int
  corner_radius : Int
  gap : Int
deriving DecidableEq

/-- The pixel at which `paste_with_rounded_corners_and_gap` actually
pastes: `combined_img.paste(img, (position[0], position[1] + gap), img)`. -/
def paste_dest (op : PasteOp) : Int × Int :=
  (op.position.1, op.position.2 + op.gap)

/-- One text box drawn by the compositor's paragraph loop: its top-left
`position`, `width`, computed `height` and the wrapped text. -/
structure TextBox where
  position : Int × Int
  width : Int
  height : Int
  wrapped_text : String
deriving DecidableEq

/-- The paragraph loop of `create_combined_image`: starting at vertical
offset `y`, each paragraph is wrapped to 41 characters, measured with
`times.ttf` at size 30, drawn in a box of the measured height plus 40
padding at x `(width - textbox_width) // 2`, and the offset advances by
the box height plus the 20 px textbox gap. -/
def textboxes_from (env : TextEnv) (width textbox_width : Int) :
    Int → List String → List TextBox
  | _, [] => []
  | y, paragraph :: rest =>
      let wrapped_text := env.fill paragraph 41
      let wrapped_text_height := (env.textsize "times.ttf" 30 wrapped_text).2
      let textbox_height := wrapped_text_height + 40
      { position := ((width - textbox_width).fdiv 2, y),
        width := textbox_width,
        height := textbox_height,
        wrapped_text := wrapped_text } ::
        textboxes_from env width textbox_width (y + textbox_height + 20) rest

/-- The heading drawn by the compositor. -/
def heading_text : String :=
  "Global Influence: China and India\x27s Power Impact"

/-- The sub-heading drawn by the compositor. -/
def description_text : String :=
  "This infographic illustrates China\x27s Wind Energy Triumph and Global Electricity Dynamics"

/-- The geometry produced by `create_combined_image`: canvas, background,
heading and description positions, the four paste operations and the
text boxes. -/
structure CompositeLayout where
  canvas_size : Int × Int
  background : String
  heading_position : Int × Int
  description_position : Int × Int
  pastes : List PasteOp
  textboxes : List TextBox
  output_path : String
deriving DecidableEq

/-- Layout produced by `create_combined_image`.  Mirrors the source: canvas
`(2400, 1500)` with background `#B0C4DE`; heading (arial 50) centered at
y 30; description (arial 30) centered at y `heading_height + 50`;
`left_space = 50`, `right_space = 2400 - 850`, `graph_width = 800`,
`gap = 20`; the four charts pasted at the two column x positions with
size `(800, 600)` and corner radius 40; the paragraph text boxes of
width 650 starting at `heading_height + 150`. -/
def create_combined_image (env : TextEnv) (paragraphs : List String) :
    CompositeLayout :=
  let width : Int := 2400
  let heading_width := (env.textsize "arial.ttf" 50 heading_text).1
  let heading_height := (env.textsize "arial.ttf" 50 heading_text).2
  let heading_position := ((width - heading_width).fdiv 2, (30 : Int))
  let description_width := (env.textsize "arial.ttf" 30 description_text).1
  let description_position := ((width - description_width).fdiv 2, heading_height + 50)
  let left_space : Int := 50
  let right_space : Int := width - 850
  let graph_width : Int := 800
  let gap : Int := 20
  let wind_energy_position := (left_space, heading_height + 150)
  let pie_chart_position := (left_space, heading_height + 150 + 600 + gap)
  let carbon_intensity_position := (right_space, heading_height + 150)
  let electricity_generation_mix_position := (right_space, heading_height + 150 + 600 + gap)
  { canvas_size := (2400, 1500),
    background := "#B0C4DE",
    heading_position := heading_position,
    description_position := description_position,
    pastes :=
      [{ image_path := "Wind_energy_plot.png", position := wind_energy_position,
         size := (graph_width, 600), corner_radius := 40, gap := gap },
       { image_path := "china_electricity_production_pie.png", position := pie_chart_position,
         size := (graph_width, 600), corner_radius := 40, gap := gap },
       { image_path := "carbon_intensity_plot.png", position := carbon_intensity_position,
         size := (graph_width, 600), corner_radius := 40, gap := gap },
       { image_path := "electricity_generation_mix_plot.png",
         position := electricity_generation_mix_position,
         size := (graph_width, 600), corner_radius := 40, gap := gap }],
    textboxes := textboxes_from env width 650 (heading_height + 150) paragraphs,
    output_path := "22056555.png" }

/-- The combined row predicate of `filter_data` as a single Boolean. -/
def filter_pred (selected_countries : List String) (start_year end_year : Int)
    (r : Row) : Bool :=
  decide (r.country ∈ selected_countries) &&
    (decide (start_year ≤ r.year) && decide (r.year ≤ end_year))

theorem filter_data_eq_filter (df : List Row) (sel : List String) (s e : Int) :
    filter_data df sel s e = df.filter (filter_pred sel s e) := by
  unfold filter_data filter_pred
  rw [List.filter_filter]
  exact List.filter_congr (fun r _ => by
    cases h1 : decide (r.country ∈ sel) <;>
      cases h2 : decide (s ≤ r.year) <;>
        cases h3 : decide (r.year ≤ e) <;> simp [h1, h2, h3])

/-- C1.  Soundness and completeness of `filter_data`'s predicate: a row is
in the output iff it is an input row whose country is selected and whose
year lies in the inclusive range. -/
theorem filter_data_mem_iff (df : List Row) (sel : List String) (s e : Int)
    (r : Row) :
    r ∈ filter_data df sel s e ↔
      r ∈ df ∧ (r.country ∈ sel ∧ s ≤ r.year ∧ r.year ≤ e) := by
  rw [filter_data_eq_filter, List.mem_filter, filter_pred]
  simp [and_assoc]

/-- C6.  `filter_data` is idempotent: re-filtering an already-filtered
table with the same parameters returns it unchanged. -/
theorem filter_data_idempotent (df : List Row) (sel : List String) (s e : Int) :
    filter_data (filter_data df sel s e) sel s e = filter_data df sel s e := by
  rw [filter_data_eq_filter, filter_data_eq_filter df]
  exact List.filter_eq_self.mpr (fun r hr => (List.mem_filter.mp hr).2)

/-- C9.  `filter_data` is pure (pandas boolean-mask selection allocates a
new frame) and its output is an order-preserving subsequence of the
input: a sublist, so every output row occurs in the input with relative
order retained. -/
theorem filter_data_sublist (df : List Row) (sel : List String) (s e : Int) :
    (filter_data df sel s e).Sublist df := by
  rw [filter_data_eq_filter]
  exact List.filter_sublist df

/-- C7.  The compositor's fixed geometry: 2400x1500 canvas, fixed
background, all four charts sized 800x600 with corner radius 40 and
gap 20, positions at x 50 (left column) and x 1550 (right column), the
lower chart of each column requested 600 + 20 below the upper one. -/
theorem compositor_fixed_layout (env : TextEnv) (paragraphs : List String) :
    (create_combined_image env paragraphs).canvas_size = (2400, 1500) ∧
    (create_combined_image env paragraphs).background = "#B0C4DE" ∧
    (create_combined_image env paragraphs).pastes.map PasteOp.image_path =
      ["Wind_energy_plot.png", "china_electricity_production_pie.png",
       "carbon_intensity_plot.png", "electricity_generation_mix_plot.png"] ∧
    (create_combined_image env paragraphs).pastes.map PasteOp.size =
      [(800, 600), (800, 600), (800, 600), (800, 600)] ∧
    (create_combined_image env paragraphs).pastes.map PasteOp.corner_radius =
      [40, 40, 40, 40] ∧
    (create_combined_image env paragraphs).pastes.map PasteOp.gap =
      [20, 20, 20, 20] ∧
    (create_combined_image env paragraphs).pastes.map PasteOp.position =
      [(50, (env.textsize "arial.ttf" 50 heading_text).2 + 150),
       (50, (env.textsize "arial.ttf" 50 heading_text).2 + 150 + 600 + 20),
       (1550, (env.textsize "arial.ttf" 50 heading_text).2 + 150),
       (1550, (env.textsize "arial.ttf" 50 heading_text).2 + 150 + 600 + 20)] := by
  refine ⟨rfl, rfl, rfl, rfl, rfl, rfl, ?_⟩
  simp [create_combined_image]

/-- C10.  Every paste lands at `(position[0], position[1] + gap)`: the
four charts are pasted 20 px below their requested positions, and the
visible vertical distance between the two stacked charts of a column —
from the bottom edge of the upper pasted chart (dest y + 600) to the
dest y of the lower one — is exactly the 20 px gap. -/
theorem paste_dest_gap (env : TextEnv) (paragraphs : List String) :
    (create_combined_image env paragraphs).pastes.map paste_dest =
      (create_combined_image env paragraphs).pastes.map
        (fun op => (op.position.1, op.position.2 + op.gap)) ∧
    (create_combined_image env paragraphs).pastes.map paste_dest =
      [(50, (env.textsize "arial.ttf" 50 heading_text).2 + 150 + 20),
       (50, (env.textsize "arial.ttf" 50 heading_text).2 + 150 + 600 + 20 + 20),
       (1550, (env.textsize "arial.ttf" 50 heading_text).2 + 150 + 20),
       (1550, (env.textsize "arial.ttf" 50 heading_text).2 + 150 + 600 + 20 + 20)] ∧
    ((env.textsize "arial.ttf" 50 heading_text).2 + 150 + 600 + 20 + 20) -
      (((env.textsize "arial.ttf" 50 heading_text).2 + 150 + 20) + 600) = 20 := by
  refine ⟨rfl, ?_, by ring⟩
  simp [create_combined_image, paste_dest]

theorem textboxes_from_pos0 (env : TextEnv) (w tw : Int) :
    ∀ (ps : List String) (y : Int) (b : TextBox),
      (textboxes_from env w tw y ps)[0]? = some b → b.position.2 = y := by
  intro ps y b hb
  cases ps with
  | nil => simp [textboxes_from] at hb
  | cons p rest =>
      simp [textboxes_from] at hb
      rw [← hb]

theorem textboxes_from_step (env : TextEnv) (w tw : Int) :
    ∀ (ps : List String) (y : Int) (i : Nat) (p : String) (b1 b2 : TextBox),
      ps[i]? = some p →
      (textboxes_from env w tw y ps)[i]? = some b1 →
      (textboxes_from env w tw y ps)[i + 1]? = some b2 →
      b1.height = (env.textsize "times.ttf" 30 (env.fill p 41)).2 + 40 ∧
        b2.position.2 = b1.position.2 + b1.height + 20
  | [], _, _, _, _, _ => by
      intro hp _ _
      simp at hp
  | q :: rest, y, 0, p, b1, b2 => by
      intro hp h1 h2
      simp [textboxes_from] at hp h1 h2
      have hy2 := textboxes_from_pos0 env w tw rest _ b2 h2
      rw [← h1, ← hp]
      exact ⟨rfl, by rw [hy2]⟩
  | q :: rest, y, Nat.succ j, p, b1, b2 => by
      intro hp h1 h2
      simp [textboxes_from] at hp h1 h2
      exact textboxes_from_step env w tw rest _ j p b1 b2 hp h1 h2

/-- C2.  Text-box layout invariant of the compositor's paragraph loop:
the first box sits at `heading_height + 150`; each box's height is the
measured wrapped-text height plus 40 px padding; and each next box's
vertical offset is the previous box's offset plus its height plus the
fixed 20 px gap. -/
theorem textbox_offsets_cumulative (env : TextEnv) (paragraphs : List String) :
    (∀ b, (create_combined_image env paragraphs).textboxes[0]? = some b →
        b.position.2 = (env.textsize "arial.ttf" 50 heading_text).2 + 150) ∧
    (∀ (i : Nat) (p : String) (b1 b2 : TextBox),
        paragraphs[i]? = some p →
        (create_combined_image env paragraphs).textboxes[i]? = some b1 →
        (create_combined_image env paragraphs).textboxes[i + 1]? = some b2 →
        b1.height = (env.textsize "times.ttf" 30 (env.fill p 41)).2 + 40 ∧
          b2.position.2 = b1.position.2 + b1.height + 20) := by
  constructor
  · intro b hb
    exact textboxes_from_pos0 env 2400 650 paragraphs _ b hb
  · intro i p b1 b2 hp h1 h2
    exact textboxes_from_step env 2400 650 paragraphs _ i p b1 b2 hp h1 h2

/-- A concrete text environment: every measurement is `(100, 10)` and
wrapping is the identity. -/
def env0 : TextEnv :=
  { textsize := fun _ _ _ => (100, 10), fill := fun p _ => p }

/-- A second text environment, pointwise equal to `env0`. -/
def env1 : TextEnv :=
  { textsize := fun _ _ _ => (100, 10), fill := fun p _ => p }

/-- C2 witness: in `env0` (all measurements of height 10) with paragraphs
`["a", "b"]`, box 0 is 50 px tall at y 160 and box 1 starts at
160 + 50 + 20 = 230. -/
theorem textbox_offsets_cumulative_witness :
    (⟨(875, 160), 650, 50, "a"⟩ : TextBox).height =
        (env0.textsize "times.ttf" 30 (env0.fill "a" 41)).2 + 40 ∧
      (⟨(875, 230), 650, 50, "b"⟩ : TextBox).position.2 =
        (⟨(875, 160), 650, 50, "a"⟩ : TextBox).position.2 +
          (⟨(875, 160), 650, 50, "a"⟩ : TextBox).height + 20 :=
  (textbox_offsets_cumulative env0 ["a", "b"]).2 0 "a"
    ⟨(875, 160), 650, 50, "a"⟩ ⟨(875, 230), 650, 50, "b"⟩ rfl rfl rfl

/-- C8.  The compositor's layout is deterministic: with the same
paragraphs and the same text-measurement and wrapping behaviour, two
runs place every element identically. -/
theorem compositor_deterministic (e1 e2 : TextEnv) (paragraphs : List String)
    (hts : ∀ f s t, e1.textsize f s t = e2.textsize f s t)
    (hfill : ∀ t w, e1.fill t w = e2.fill t w) :
    create_combined_image e1 paragraphs = create_combined_image e2 paragraphs := by
  obtain ⟨t1, f1⟩ := e1
  obtain ⟨t2, f2⟩ := e2
  have h1 : t1 = t2 := funext fun f => funext fun s => funext fun t => hts f s t
  have h2 : f1 = f2 := funext fun t => funext fun w => hfill t w
  rw [h1, h2]

/-- C8 witness: two pointwise-equal environments yield the same layout. -/
theorem compositor_deterministic_witness :
    create_combined_image env0 ["a"] = create_combined_image env1 ["a"] :=
  compositor_deterministic env0 env1 ["a"] (fun _ _ _ => rfl) (fun _ _ => rfl)

/-- C3.  The pie renderer selects from its own `df_energy` argument —
the full table in the main execution — exactly the rows with country
`China` and year 2022, while the other three renderers only ever read
sub-selections (sublists) of the filtered table they are given. -/
theorem pie_reads_full_table_others_filtered (df_energy df_sel : List Row)
    (sel : List String) :
    (∀ r, r ∈ china_data_2018 df_energy ↔
        r ∈ df_energy ∧ r.country = "China" ∧ r.year = 2022) ∧
    (∀ rows ∈ plot_wind_energy_trend_rows df_sel sel, rows.Sublist df_sel) ∧
    (∀ rows ∈ plot_carbon_intensity_rows df_sel sel, rows.Sublist df_sel) ∧
    (plot_electricity_generation_mix_rows df_sel).Sublist df_sel := by
  refine ⟨?_, ?_, ?_, List.filter_sublist df_sel⟩
  · intro r
    simp [china_data_2018, List.mem_filter, and_assoc]
  · intro rows hrows
    obtain ⟨c, _, hc⟩ := List.mem_map.mp hrows
    rw [← hc]
    exact List.filter_sublist df_sel
  · intro rows hrows
    obtain ⟨c, _, hc⟩ := List.mem_map.mp hrows
    rw [← hc]
    exact List.filter_sublist df_sel

/-- A China / 2022 row with all numeric columns zero. -/
def rowChina2022 : Row :=
  ⟨"China", 2022, 0, 0, 0, 0, 0, 0, 0, 0, 0, 0⟩

/-- A Canada / 2012 row with all numeric columns zero. -/
def rowCanada2012 : Row :=
  ⟨"Canada", 2012, 0, 0, 0, 0, 0, 0, 0, 0, 0, 0⟩

/-- C3 witness: on the one-row table `[rowChina2022]`, the pie selection
keeps the row, and the per-country / per-year selections of the other
renderers are sublists of their input. -/
theorem pie_reads_full_table_others_filtered_witness :
    (rowChina2022 ∈ china_data_2018 [rowChina2022] ↔
        rowChina2022 ∈ [rowChina2022] ∧ rowChina2022.country = "China" ∧
          rowChina2022.year = 2022) ∧
      ([rowChina2022] : List Row).Sublist [rowChina2022] ∧
      ([] : List Row).Sublist [rowChina2022] ∧
      (plot_electricity_generation_mix_rows [rowChina2022]).Sublist [rowChina2022] :=
  have h := pie_reads_full_table_others_filtered [rowChina2022] [rowChina2022]
    selected_countries
  ⟨h.1 rowChina2022, h.2.1 [rowChina2022] (by decide), h.2.2.1 [] (by decide),
    h.2.2.2⟩

/-- C4 counterexample: on the table `[rowCanada2012]`, which has no
year-2022 row at all, the wind-trend and carbon-intensity renderers do
not fail — they produce chart data — refuting the claim that each of
the four renderers fails when the 2022 row is absent. -/
theorem renderers_2022_claim_cex :
    plot_electricity_generation_mix_rows [rowCanada2012] = [] ∧
      (plot_wind_energy_trend [rowCanada2012] selected_countries).isSome = true ∧
      (plot_carbon_intensity [rowCanada2012] selected_countries).isSome = true :=
  ⟨rfl, rfl, rfl⟩

/-- C4 (amended).  Only the pie and stacked-bar renderers hard-code year
2022.  On input without the rows they expect, the pie renderer fails
(`iloc[0]` on an empty selection) and the stacked-bar renderer fails
whenever at least two countries are selected (its empty bar heights
cannot broadcast against the per-country x positions); the wind-trend
and carbon-intensity renderers do not filter by year and always
produce chart data. -/
theorem renderers_2022_amended (df_energy df_sel : List Row) (sel : List String)
    (hchina : china_data_2018 df_energy = [])
    (h2022 : plot_electricity_generation_mix_rows df_sel = [])
    (hsel : 2 ≤ sel.length) :
    plot_china_electricity_production_pie df_energy = none ∧
      plot_electricity_generation_mix df_sel sel = none ∧
      (plot_wind_energy_trend df_sel sel).isSome = true ∧
      (plot_carbon_intensity df_sel sel).isSome = true := by
  refine ⟨?_, ?_, rfl, rfl⟩
  · simp [plot_china_electricity_production_pie, hchina]
  · have hb : broadcastable sel.length
        (plot_electricity_generation_mix_rows df_sel).length = false := by
      have h0 : sel.length ≠ 0 := by omega
      have h1 : sel.length ≠ 1 := by omega
      rw [h2022]
      simp [broadcastable, h0, h1]
    simp [plot_electricity_generation_mix, hb]

/-- C4 witness for the amended claim, at the no-2022 table
`[rowCanada2012]` with the script's five selected countries. -/
theorem renderers_2022_amended_witness :
    plot_china_electricity_production_pie [rowCanada2012] = none ∧
      plot_electricity_generation_mix [rowCanada2012] selected_countries = none ∧
      (plot_wind_energy_trend [rowCanada2012] selected_countries).isSome = true ∧
      (plot_carbon_intensity [rowCanada2012] selected_countries).isSome = true :=
  renderers_2022_amended [rowCanada2012] [rowCanada2012] selected_countries
    rfl rfl (by decide)

/-- The (country, year) key of a row. -/
def country_year (r : Row) : String × Int :=
  (r.country, r.year)

/-- The 55 (country, year) pairs selected by the main execution:
5 countries x the 11 years 2012..2022. -/
def study_pairs : List (String × Int) :=
  selected_countries.flatMap (fun c => study_years.map (fun y => (c, y)))

theorem length_filter_or_disjoint (p q : Row → Bool)
    (hdisj : ∀ r, p r = true → q r = true → False) :
    ∀ l : List Row,
      (l.filter (fun r => p r || q r)).length =
        (l.filter p).length + (l.filter q).length
  | [] => rfl
  | x :: l => by
      have ih := length_filter_or_disjoint p q hdisj l
      cases hp : p x <;> cases hq : q x
      · simp [List.filter_cons, hp, hq, ih]
      · simp [List.filter_cons, hp, hq, ih]
        omega
      · simp [List.filter_cons, hp, hq, ih]
        omega
      · exact (hdisj x hp hq).elim

theorem length_filter_key_mem (df : List Row) :
    ∀ qs : List (String × Int), qs.Nodup →
      (df.filter (fun r => decide (country_year r ∈ qs))).length =
        (qs.map (fun q =>
          (df.filter (fun r => decide (country_year r = q))).length)).sum
  | [], _ => by simp
  | q :: rest, hnd => by
      have hq : q ∉ rest := (List.nodup_cons.mp hnd).1
      have ih := length_filter_key_mem df rest (List.nodup_cons.mp hnd).2
      have hcongr : df.filter (fun r => decide (country_year r ∈ q :: rest)) =
          df.filter (fun r =>
            decide (country_year r = q) || decide (country_year r ∈ rest)) :=
        List.filter_congr (fun r _ => by simp [List.mem_cons])
      have hsplit := length_filter_or_disjoint
        (fun r => decide (country_year r = q))
        (fun r => decide (country_year r ∈ rest))
        (fun r h1 h2 => by
          have e1 : country_year r = q := of_decide_eq_true h1
          have e2 : country_year r ∈ rest := of_decide_eq_true h2
          rw [e1] at e2
          exact hq e2) df
      rw [hcongr, hsplit, ih]
      simp

theorem sum_map_all_one {α : Type} (f : α → Nat) :
    ∀ l : List α, (∀ x ∈ l, f x = 1) → (l.map f).sum = l.length
  | [], _ => rfl
  | x :: l, h => by
      have hx := h x (List.mem_cons_self x l)
      have ih := sum_map_all_one f l (fun y hy => h y (List.mem_cons_of_mem x hy))
      simp [hx, ih]
      omega

theorem filter_pred_eq_mem_pairs (r : Row) :
    filter_pred selected_countries 2012 2022 r =
      decide (country_year r ∈ study_pairs) := by
  have hyears : r.year ∈ study_years ↔ 2012 ≤ r.year ∧ r.year ≤ 2022 := by
    simp [study_years]
    omega
  have hpairs : country_year r ∈ study_pairs ↔
      r.country ∈ selected_countries ∧ r.year ∈ study_years := by
    simp [study_pairs, country_year]
  rw [filter_pred, ← Bool.decide_and, ← Bool.decide_and]
  exact decide_eq_decide.mpr (by rw [hpairs, hyears])

/-- C5.  If the input table has exactly one row for each of the 55
(country, year) combinations of the five selected countries and the
eleven years 2012..2022, then `filter_data` with those parameters
returns exactly 55 rows. -/
theorem filter_data_55_rows (df : List Row)
    (h : ∀ c ∈ selected_countries, ∀ y ∈ study_years,
        (df.filter (fun r => r.country == c && r.year == y)).length = 1) :
    (filter_data df selected_countries 2012 2022).length = 55 := by
  have hnd : study_pairs.Nodup := by decide
  have heq : filter_data df selected_countries 2012 2022 =
      df.filter (fun r => decide (country_year r ∈ study_pairs)) := by
    rw [filter_data_eq_filter]
    exact List.filter_congr (fun r _ => filter_pred_eq_mem_pairs r)
  rw [heq, length_filter_key_mem df study_pairs hnd]
  have hall : ∀ q ∈ study_pairs,
      (df.filter (fun r => decide (country_year r = q))).length = 1 := by
    intro q hq
    obtain ⟨c, y⟩ := q
    have hcy : c ∈ selected_countries ∧ y ∈ study_years := by
      simpa [study_pairs] using hq
    have hcount := h c hcy.1 y hcy.2
    rw [← hcount]
    exact congrArg List.length (List.filter_congr (fun r _ => by
      by_cases h1 : r.country = c <;> by_cases h2 : r.year = y <;>
        simp [country_year, Prod.ext_iff, h1, h2]))
  rw [sum_map_all_one _ study_pairs hall]
  rfl

/-- A synthetic table with exactly one all-zero row for each of the 55
(country, year) study combinations. -/
def witness_df : List Row :=
  study_pairs.map (fun q => ⟨q.1, q.2, 0, 0, 0, 0, 0, 0, 0, 0, 0, 0⟩)

/-- C5 witness: on the synthetic 55-row table, the main execution's
filter returns all 55 rows. -/
theorem filter_data_55_rows_witness :
    (filter_data witness_df selected_countries 2012 2022).length = 55 :=
  filter_data_55_rows witness_df (by decide)

end Infographic
